import Mathlib

/-!
Verification of the content-moderator file admission pipeline

Shallow embedding of `docker/content-moderator/app.py` (class `ContentModerator`).

The Python code interacts with an external world: the filesystem (reading bytes
for hashing, `magic` MIME sniffing, `os.path.getsize`), the ClamAV daemon over a
TCP socket, and the PIL image decoder.  Each such interaction either yields a
value or raises an exception; we model every interaction as an `Except String α`
input collected in a `World` structure.  A Python `try:`/`except:` block around
a body whose only fault source is such an interaction is embedded as a `match`
on the corresponding `Except` value: the `.ok` branch is the non-raising run of
the body and the `.error` branch is the `except` handler.

The SHA-256 digest value itself is abstracted as the payload of the successful
hash-read interaction (`World.hashRead`): no claim under analysis depends on the
digest computation, only on whether hashing succeeded.

Python string operations are embedded structurally over the character list of
the string (so that concrete runs reduce in the kernel): `s.strip()` ↦
`pyStrip`, `s.split(":")` ↦ `pySplitChar ':'`, `pat in s` ↦ `pyContains`,
`s.startswith(p)` ↦ `List.isPrefixOf` on the character lists, `s.lower()` ↦
mapping `Char.toLower`, `s.lstrip('.')` ↦ dropping leading `'.'` chars.
`logger` calls are pure side effects; they are modelled (as an explicit log
output) only in `analyze_image_content`, where a claim refers to them.
-/

/-- The whitespace characters stripped by Python `str.strip()` (for ASCII
content, which is all the protocol produces). -/
def pyIsSpace (c : Char) : Bool :=
  c = ' ' || c = '\t' || c = '\n' || c = '\x0d' || c = '\x0b' || c = '\x0c'

/-- Python `s.strip()` on the character list: drop whitespace at both ends. -/
def pyStripList (cs : List Char) : List Char :=
  ((cs.dropWhile pyIsSpace).reverse.dropWhile pyIsSpace).reverse

/-- Python `s.strip()`. -/
def pyStrip (s : String) : String :=
  String.mk (pyStripList s.data)

/-- Python `pat in s` (substring containment): some suffix of `s` starts with
`pat`. -/
def pyContains (s pat : String) : Bool :=
  s.data.tails.any (fun t => pat.data.isPrefixOf t)

/-- Python `s.split(sep)` for a one-character separator: pieces between the
occurrences of `sep`, one more piece than occurrences (`"".split(":") == [""]`,
`"a:".split(":") == ["a", ""]`). -/
def pySplitChar (sep : Char) : List Char → List (List Char)
  | [] => [[]]
  | c :: rest =>
    if c = sep then
      [] :: pySplitChar sep rest
    else
      match pySplitChar sep rest with
      | [] => [[c]]
      | piece :: pieces => (c :: piece) :: pieces

/-- Python `os.path.rfind`-style last index of a character in a list of
characters, `none` when absent (Python returns `-1`). -/
def pyRFind (cs : List Char) (c : Char) : Option Nat :=
  cs.enum.foldl (fun acc p => if p.2 = c then some p.1 else acc) none

/-- The extension part of Python `os.path.splitext` (posix, `sep='/'`,
`extsep='.'`): the suffix from the last dot onward, provided that dot lies in
the basename and some earlier basename character is not a dot (so dotfiles like
`".bashrc"` have no extension). -/
def splitext_ext (p : String) : String :=
  let cs := p.data
  let sepIndex : Int := match pyRFind cs '/' with | some i => (i : Int) | none => -1
  let dotIndex : Int := match pyRFind cs '.' with | some i => (i : Int) | none => -1
  if sepIndex < dotIndex then
    if cs.enum.any (fun q => sepIndex < (q.1 : Int) && (q.1 : Int) < dotIndex && q.2 != '.') then
      String.mk (cs.drop dotIndex.toNat)
    else ""
  else ""

/-- Embeds `ext = ext.lower().lstrip('.')` applied to the `splitext` extension of the
path (lines 46–47 of `app.py`). -/
def extOf (file_path : String) : String :=
  String.mk (((splitext_ext file_path).data.map Char.toLower).dropWhile (fun c => c = '.'))

/-- Constant `ALLOWED_EXTENSIONS` (lines 23–27): category → accepted extensions, in the
dict's insertion order (Python 3.7+ dicts iterate in insertion order). -/
def ALLOWED_EXTENSIONS : List (String × List String) :=
  [("image", ["jpg", "jpeg", "png", "gif", "bmp", "webp"]),
   ("video", ["mp4", "avi", "mov", "wmv", "flv", "webm"]),
   ("document", ["pdf", "doc", "docx", "txt", "rtf", "odt"])]

/-- Constant `MAX_FILE_SIZE = 10 * 1024 * 1024` (line 29). -/
def MAX_FILE_SIZE : Nat := 10 * 1024 * 1024

/-- Table of `_mime_matches_extension` (lines 62–73): the category's configured MIME
prefixes; `mime_categories.get(category, [])` yields `[]` for an unknown key. -/
def mime_categories : String → List String
  | "image" => ["image/"]
  | "video" => ["video/"]
  | "document" => ["application/pdf", "application/msword", "text/", "application/vnd."]
  | _ => []

/-- Method `_mime_matches_extension` (lines 62–73): true iff the sniffed MIME type
starts with one of the category's prefixes. -/
def mime_matches_extension (mime_type category : String) : Bool :=
  (mime_categories category).any (fun pre => pre.data.isPrefixOf mime_type.data)

/-- The `for category, extensions in ALLOWED_EXTENSIONS.items()` loop of
`validate_file_type` (lines 50–56): returns at the first category whose
extension set contains `ext` and whose prefixes match `mime_type`; otherwise
falls through to `(False, None, mime_type)`. -/
def validate_file_type_loop (ext mime_type : String) :
    List (String × List String) → Bool × Option String × Option String
  | [] => (false, none, some mime_type)
  | (category, extensions) :: rest =>
    if ext ∈ extensions then
      if mime_matches_extension mime_type category then
        (true, some category, some mime_type)
      else
        validate_file_type_loop ext mime_type rest
    else
      validate_file_type_loop ext mime_type rest

/-- Method `validate_file_type` (lines 39–60).  The only fault source in the `try`
body is `self.mime.from_file(file_path)`, modelled by the `sniff : Except`
input; its `.error` case is the `except` branch returning
`(False, None, None)`. -/
def validate_file_type (sniff : Except String String) (file_path : String) :
    Bool × Option String × Option String :=
  match sniff with
  | .error _ => (false, none, none)
  | .ok mime_type =>
    validate_file_type_loop (extOf file_path) mime_type ALLOWED_EXTENSIONS

/-- Method `validate_file_size` (lines 75–82): `os.path.getsize` is the `stat` input;
on success returns `(size <= max_size, size)`, on exception `(False, 0)`. -/
def validate_file_size (stat : Except String Nat) (max_size : Nat) : Bool × Nat :=
  match stat with
  | .ok size => (size ≤ max_size, size)
  | .error _ => (false, 0)

/-- The response parsing of `scan_for_malware` (lines 101–108), applied to the
already-`strip()`ped daemon response: `"OK" in response` → `(True, "Clean")`;
else `"FOUND" in response` → `(False, response.split(":")[1].strip())`, where a
response with no `":"` makes the index `[1]` raise `IndexError`, caught by the
surrounding `except` as a scan error; else `(False, "Scan failed")`. -/
def parse_scan_response (response : String) : Bool × String :=
  if pyContains response "OK" then
    (true, "Clean")
  else if pyContains response "FOUND" then
    match (pySplitChar ':' response.data).get? 1 with
    | some field => (false, pyStrip (String.mk field))
    | none => (false, "Scan error: list index out of range")
  else
    (false, "Scan failed")

/-- Method `scan_for_malware` (lines 84–112): the daemon exchange is the
`daemon : Except` input, its `.ok` payload being the decoded bytes received
(then `strip()`ped, line 98) and its `.error` case any transport exception,
caught by the `except` branch as `(False, f"Scan error: {e}")`. -/
def scan_for_malware (daemon : Except String String) : Bool × String :=
  match daemon with
  | .ok raw => parse_scan_response (pyStrip raw)
  | .error e => (false, "Scan error: " ++ e)

/-- What `analyze_image_content` observes of a successfully decoded image:
`img.size`, `img.mode`, and whether `'transparency' in img.info`. -/
structure ImageInfo where
  width : Nat
  height : Nat
  mode : String
  transparencyInInfo : Bool
  deriving Repr, DecidableEq

/-- Method `analyze_image_content` (lines 114–137).  The decode is the
`decoded : Except` input; its `.error` case is the `except` branch returning
`(False, f"Analysis error: {e}")`.  The first component is the returned pair,
the second the `logger` messages emitted (the transparency check at lines
130–131 only logs). -/
def analyze_image_content (decoded : Except String ImageInfo) :
    (Bool × String) × List String :=
  match decoded with
  | .error e => ((false, "Analysis error: " ++ e), ["Error analyzing image content: " ++ e])
  | .ok img =>
    if img.width < 10 || img.height < 10 then
      ((false, "Image too small"), [])
    else if img.width > 10000 || img.height > 10000 then
      ((false, "Image too large"), [])
    else
      ((true, "Image appears safe"),
        if img.mode = "RGBA" || img.mode = "LA" || img.transparencyInInfo then
          ["Image contains transparency"]
        else [])

/-- Method `generate_file_hash` (lines 139–149): streaming the file through SHA-256 is
the `hashRead : Except` input (payload: the hex digest); any I/O fault is the
`except` branch returning `None`. -/
def generate_file_hash (hashRead : Except String String) : Option String :=
  match hashRead with
  | .ok h => some h
  | .error _ => none

/-- The external interactions of one `comprehensive_scan` run, each either a
value or the message of the exception it raises. -/
structure World where
  timestamp : String
  hashRead : Except String String
  sniff : Except String String
  stat : Except String Nat
  daemon : Except String String
  decoded : Except String ImageInfo

/-- The `results` dict of `comprehensive_scan` (lines 153–166), with the
`malware_scan` and `content_analysis` sub-dicts flattened into
`clean`/`details` and `safe`/`details` fields. -/
structure ScanReport where
  file_path : String
  timestamp : String
  file_hash : Option String
  file_size : Nat
  file_type_valid : Bool
  file_category : Option String
  mime_type : Option String
  size_valid : Bool
  malware_clean : Bool
  malware_details : String
  content_safe : Bool
  content_details : String
  overall_safe : Bool
  errors : List String
  deriving Repr, DecidableEq

/-- The initial `results` dict (lines 153–166): every stage field at its
"not run" sentinel. -/
def initReport (w : World) (file_path : String) : ScanReport :=
  { file_path := file_path
    timestamp := w.timestamp
    file_hash := none
    file_size := 0
    file_type_valid := false
    file_category := none
    mime_type := none
    size_valid := false
    malware_clean := false
    malware_details := "Not scanned"
    content_safe := false
    content_details := "Not analyzed"
    overall_safe := false
    errors := [] }

/-- The `try` body of `comprehensive_scan` (lines 168–225) as an `Except`
computation: each `return results` of the Python body is an `Except.ok`.  Every
stage call is one of the total functions above (each catches its own faults),
so no expression in this body throws — which is exactly what the pipeline
claims and what `comprehensive_scan_never_raises` proves. -/
def comprehensive_scan_body (w : World) (file_path : String) : Except String ScanReport :=
  let r0 := initReport w file_path
  let r1 := { r0 with file_hash := generate_file_hash w.hashRead }
  let tvr := validate_file_type w.sniff file_path
  let r2 := { r1 with file_type_valid := tvr.1, file_category := tvr.2.1, mime_type := tvr.2.2 }
  if tvr.1 = false then
    Except.ok { r2 with errors := r2.errors ++ ["Invalid file type"] }
  else
    let svr := validate_file_size w.stat MAX_FILE_SIZE
    let r3 := { r2 with size_valid := svr.1, file_size := svr.2 }
    if svr.1 = false then
      Except.ok { r3 with errors := r3.errors ++ ["File too large"] }
    else
      let mcr := scan_for_malware w.daemon
      let r4 := { r3 with malware_clean := mcr.1, malware_details := mcr.2 }
      if mcr.1 = false then
        Except.ok { r4 with errors := r4.errors ++ ["Malware detected: " ++ mcr.2] }
      else
        if tvr.2.1 = some "image" then
          let car := (analyze_image_content w.decoded).1
          let r5 := { r4 with content_safe := car.1, content_details := car.2 }
          if car.1 = false then
            Except.ok { r5 with errors := r5.errors ++ ["Content issue: " ++ car.2] }
          else
            Except.ok { r5 with overall_safe :=
              r5.file_type_valid && r5.size_valid && r5.malware_clean && r5.content_safe }
        else
          let r5 := { r4 with content_safe := true,
                              content_details := "Content analysis not applicable" }
          Except.ok { r5 with overall_safe :=
            r5.file_type_valid && r5.size_valid && r5.malware_clean && r5.content_safe }

/-- Method `comprehensive_scan` (lines 151–231): the `try` body, with the orchestrator
`except` branch (lines 227–229) appending a scan error.  The branch is
unreachable — see `comprehensive_scan_never_raises`. -/
def comprehensive_scan (w : World) (file_path : String) : ScanReport :=
  match comprehensive_scan_body w file_path with
  | .ok results => results
  | .error e => { initReport w file_path with errors := ["Scan error: " ++ e] }

-- Sanity checks of the embedding on concrete inputs.
example :
    comprehensive_scan
      { timestamp := "t", hashRead := .ok "abc123", sniff := .ok "image/png",
        stat := .ok 1024, daemon := .ok "stream: OK",
        decoded := .ok ⟨100, 100, "RGB", false⟩ } "/tmp/a.png" =
    { file_path := "/tmp/a.png", timestamp := "t", file_hash := some "abc123",
      file_size := 1024, file_type_valid := true, file_category := some "image",
      mime_type := some "image/png", size_valid := true, malware_clean := true,
      malware_details := "Clean", content_safe := true,
      content_details := "Image appears safe", overall_safe := true,
      errors := [] } := by decide

example : extOf "/tmp/photo.JPG" = "jpg" := by decide
example : extOf "/tmp/.bashrc" = "" := by decide
example : extOf "/tmp/archive.tar.gz" = "gz" := by decide
example : validate_file_type (Except.ok "image/jpeg") "/tmp/a.jpg" =
    (true, some "image", some "image/jpeg") := by decide
example : parse_scan_response "stream: OK" = (true, "Clean") := by decide
example : parse_scan_response "stream: Eicar-Test-Signature FOUND" =
    (false, "Eicar-Test-Signature FOUND") := by decide
example : parse_scan_response "garbage" = (false, "Scan failed") := by decide

/-- Helper: the `try` body of the orchestrator never reaches an exceptional
result, because every stage call is a total function. -/
theorem comprehensive_scan_body_isOk (w : World) (file_path : String) :
    (comprehensive_scan_body w file_path).isOk = true := by
  simp only [comprehensive_scan_body]
  repeat' split
  all_goals rfl

/-- Helper: the `try` body of the orchestrator is never an exceptional value. -/
theorem comprehensive_scan_body_ne_error (w : World) (file_path e : String) :
    comprehensive_scan_body w file_path ≠ Except.error e := by
  intro h
  have hok := comprehensive_scan_body_isOk w file_path
  rw [h] at hok
  simp [Except.isOk, Except.toBool] at hok

/-- C4: for every file path and every behaviour of the external world
(including a fault in every interaction), the pipeline entry point returns a
report value: the `try` body `comprehensive_scan_body` always evaluates to
`Except.ok` of the returned report, so the orchestrator's `except` branch is
never the caller's result. -/
theorem comprehensive_scan_never_raises (w : World) (file_path : String) :
    comprehensive_scan_body w file_path = Except.ok (comprehensive_scan w file_path) := by
  unfold comprehensive_scan
  cases h : comprehensive_scan_body w file_path with
  | ok r => rfl
  | error e => exact absurd h (comprehensive_scan_body_ne_error w file_path e)

/-- C1: for every file path and every behaviour of the external world, the
report returned by `comprehensive_scan` has `overall_safe = true` exactly when
the type-valid flag, the size-valid flag, a clean malware verdict and a safe
content verdict all hold (the content verdict being recorded safe by default
for every non-image category). -/
theorem overall_safe_iff_all_checks (w : World) (file_path : String) :
    (comprehensive_scan w file_path).overall_safe =
      ((comprehensive_scan w file_path).file_type_valid &&
        (comprehensive_scan w file_path).size_valid &&
        (comprehensive_scan w file_path).malware_clean &&
        (comprehensive_scan w file_path).content_safe) := by
  unfold comprehensive_scan
  cases h : comprehensive_scan_body w file_path with
  | error e => exact absurd h (comprehensive_scan_body_ne_error w file_path e)
  | ok r =>
    simp only [comprehensive_scan_body] at h
    repeat' split at h
    all_goals (injection h with h; subst h; simp_all [initReport])

/-- C2: whenever a stage fails — type check (`file_type_valid = false`), size
check, malware scan, or the image content check — the run terminates there:
every later stage's fields keep their default "not run" sentinels from
`initReport`, `overall_safe` stays at its `false` sentinel, and the error list
contains exactly the one entry describing the failing stage. -/
theorem short_circuit_single_error (w : World) (file_path : String)
    (r : ScanReport) (hr : r = comprehensive_scan w file_path) :
    (r.file_type_valid = false →
      r.size_valid = false ∧ r.file_size = 0 ∧
      r.malware_clean = false ∧ r.malware_details = "Not scanned" ∧
      r.content_safe = false ∧ r.content_details = "Not analyzed" ∧
      r.overall_safe = false ∧ r.errors = ["Invalid file type"]) ∧
    (r.file_type_valid = true → r.size_valid = false →
      r.malware_clean = false ∧ r.malware_details = "Not scanned" ∧
      r.content_safe = false ∧ r.content_details = "Not analyzed" ∧
      r.overall_safe = false ∧ r.errors = ["File too large"]) ∧
    (r.file_type_valid = true → r.size_valid = true → r.malware_clean = false →
      r.content_safe = false ∧ r.content_details = "Not analyzed" ∧
      r.overall_safe = false ∧ r.errors = ["Malware detected: " ++ r.malware_details]) ∧
    (r.file_type_valid = true → r.size_valid = true → r.malware_clean = true →
      r.content_safe = false →
      r.overall_safe = false ∧ r.errors = ["Content issue: " ++ r.content_details]) := by
  subst hr
  unfold comprehensive_scan
  cases h : comprehensive_scan_body w file_path with
  | error e => exact absurd h (comprehensive_scan_body_ne_error w file_path e)
  | ok r =>
    simp only [comprehensive_scan_body] at h
    repeat' split at h
    all_goals (injection h with h; subst h; simp_all [initReport])

/-- C2 witness: a world whose sniffed MIME type mismatches the `.jpg`
extension fails at the type-check stage with exactly one error and all later
fields at their sentinels. -/
theorem short_circuit_single_error_witness :
    (comprehensive_scan
        { timestamp := "t", hashRead := Except.ok "aabb",
          sniff := Except.ok "application/x-executable", stat := Except.ok 5,
          daemon := Except.ok "stream: OK",
          decoded := Except.ok ⟨50, 50, "RGB", false⟩ } "/tmp/evil.jpg").file_type_valid
      = false ∧
    ((comprehensive_scan
        { timestamp := "t", hashRead := Except.ok "aabb",
          sniff := Except.ok "application/x-executable", stat := Except.ok 5,
          daemon := Except.ok "stream: OK",
          decoded := Except.ok ⟨50, 50, "RGB", false⟩ } "/tmp/evil.jpg").size_valid = false ∧
      (comprehensive_scan
        { timestamp := "t", hashRead := Except.ok "aabb",
          sniff := Except.ok "application/x-executable", stat := Except.ok 5,
          daemon := Except.ok "stream: OK",
          decoded := Except.ok ⟨50, 50, "RGB", false⟩ } "/tmp/evil.jpg").file_size = 0 ∧
      (comprehensive_scan
        { timestamp := "t", hashRead := Except.ok "aabb",
          sniff := Except.ok "application/x-executable", stat := Except.ok 5,
          daemon := Except.ok "stream: OK",
          decoded := Except.ok ⟨50, 50, "RGB", false⟩ } "/tmp/evil.jpg").malware_clean = false ∧
      (comprehensive_scan
        { timestamp := "t", hashRead := Except.ok "aabb",
          sniff := Except.ok "application/x-executable", stat := Except.ok 5,
          daemon := Except.ok "stream: OK",
          decoded := Except.ok ⟨50, 50, "RGB", false⟩ } "/tmp/evil.jpg").malware_details
        = "Not scanned" ∧
      (comprehensive_scan
        { timestamp := "t", hashRead := Except.ok "aabb",
          sniff := Except.ok "application/x-executable", stat := Except.ok 5,
          daemon := Except.ok "stream: OK",
          decoded := Except.ok ⟨50, 50, "RGB", false⟩ } "/tmp/evil.jpg").content_safe = false ∧
      (comprehensive_scan
        { timestamp := "t", hashRead := Except.ok "aabb",
          sniff := Except.ok "application/x-executable", stat := Except.ok 5,
          daemon := Except.ok "stream: OK",
          decoded := Except.ok ⟨50, 50, "RGB", false⟩ } "/tmp/evil.jpg").content_details
        = "Not analyzed" ∧
      (comprehensive_scan
        { timestamp := "t", hashRead := Except.ok "aabb",
          sniff := Except.ok "application/x-executable", stat := Except.ok 5,
          daemon := Except.ok "stream: OK",
          decoded := Except.ok ⟨50, 50, "RGB", false⟩ } "/tmp/evil.jpg").overall_safe = false ∧
      (comprehensive_scan
        { timestamp := "t", hashRead := Except.ok "aabb",
          sniff := Except.ok "application/x-executable", stat := Except.ok 5,
          daemon := Except.ok "stream: OK",
          decoded := Except.ok ⟨50, 50, "RGB", false⟩ } "/tmp/evil.jpg").errors
        = ["Invalid file type"]) :=
  ⟨by decide,
    (short_circuit_single_error
      { timestamp := "t", hashRead := Except.ok "aabb",
        sniff := Except.ok "application/x-executable", stat := Except.ok 5,
        daemon := Except.ok "stream: OK",
        decoded := Except.ok ⟨50, 50, "RGB", false⟩ } "/tmp/evil.jpg" _ rfl).1 (by decide)⟩

/-- C9: a hashing failure alone never short-circuits the pipeline: the hasher
returns `none`, and the report of a run whose hash read faults is exactly the
report of the same run with a working hash read, with the content hash field
set to `none` — every later stage executes identically and no error entry is
added. -/
theorem hash_failure_never_short_circuits (w : World) (e file_path : String) :
    generate_file_hash (Except.error e) = none ∧
    comprehensive_scan { w with hashRead := Except.error e } file_path =
      { comprehensive_scan w file_path with file_hash := none } := by
  refine ⟨rfl, ?_⟩
  unfold comprehensive_scan
  cases h : comprehensive_scan_body { w with hashRead := Except.error e } file_path with
  | error e2 => exact absurd h (comprehensive_scan_body_ne_error _ file_path e2)
  | ok r =>
    cases h2 : comprehensive_scan_body w file_path with
    | error e2 => exact absurd h2 (comprehensive_scan_body_ne_error w file_path e2)
    | ok r2 =>
      simp only [comprehensive_scan_body] at h h2
      repeat' split at h
      all_goals (repeat' split at h2)
      all_goals injection h with h
      all_goals injection h2 with h2
      all_goals (subst h; subst h2)
      all_goals simp_all [initReport, generate_file_hash]

/-- C3 counterexample: the code takes `response.split(":")[1].strip()`, so on
the daemon response `"stream: Eicar-Test-Signature FOUND"` (one colon, hence
the second field runs to the end of the line) the recorded signature name is
`"Eicar-Test-Signature FOUND"`, not `"Eicar-Test-Signature"` as the claim
states. -/
theorem scan_found_signature_counterexample :
    scan_for_malware (Except.ok "stream: Eicar-Test-Signature FOUND") =
      (false, "Eicar-Test-Signature FOUND") ∧
    (scan_for_malware (Except.ok "stream: Eicar-Test-Signature FOUND")).2 ≠
      "Eicar-Test-Signature" := by
  exact ⟨by decide, by decide⟩

/-- C3 amended: the parser maps a (stripped) response containing `OK` to
Clean; a response containing `FOUND` but not `OK` to Infected with the
signature name being the stripped second colon-delimited field (so the
response `"stream: Eicar-Test-Signature FOUND"` yields the signature name
`"Eicar-Test-Signature FOUND"`, the trailing token included); a response
containing neither substring to the `"Scan failed"` error; and any transport
exception to a `"Scan error"` verdict. -/
theorem scan_response_grammar :
    (∀ raw, pyContains (pyStrip raw) "OK" = true →
        scan_for_malware (Except.ok raw) = (true, "Clean")) ∧
    (∀ raw field, pyContains (pyStrip raw) "OK" = false →
        pyContains (pyStrip raw) "FOUND" = true →
        (pySplitChar ':' (pyStrip raw).data)[1]? = some field →
        scan_for_malware (Except.ok raw) = (false, pyStrip (String.mk field))) ∧
    (∀ raw, pyContains (pyStrip raw) "OK" = false →
        pyContains (pyStrip raw) "FOUND" = false →
        scan_for_malware (Except.ok raw) = (false, "Scan failed")) ∧
    (∀ e, scan_for_malware (Except.error e) = (false, "Scan error: " ++ e)) := by
  refine ⟨?_, ?_, ?_, ?_⟩
  · intro raw h1
    simp [scan_for_malware, parse_scan_response, h1]
  · intro raw field h1 h2 h3
    simp [scan_for_malware, parse_scan_response, h1, h2, h3]
  · intro raw h1 h2
    simp [scan_for_malware, parse_scan_response, h1, h2]
  · intro e
    rfl

/-- C3 witness: the amended grammar applied to the concrete `FOUND` response
of the claim. -/
theorem scan_response_grammar_witness :
    pyContains (pyStrip "stream: Eicar-Test-Signature FOUND") "OK" = false ∧
    pyContains (pyStrip "stream: Eicar-Test-Signature FOUND") "FOUND" = true ∧
    scan_for_malware (Except.ok "stream: Eicar-Test-Signature FOUND") =
      (false, "Eicar-Test-Signature FOUND") :=
  ⟨by decide, by decide,
    (scan_response_grammar.2.1 "stream: Eicar-Test-Signature FOUND"
        " Eicar-Test-Signature FOUND".data (by decide) (by decide) (by decide)).trans
      (by decide)⟩

/-- C10: a daemon response containing both `OK` and `FOUND` (for example an
infection whose signature name contains `"OK"`) is classified Clean, because
the `OK` substring check runs before the `FOUND` check. -/
theorem ok_precedes_found (raw : String)
    (h1 : pyContains (pyStrip raw) "OK" = true)
    (h2 : pyContains (pyStrip raw) "FOUND" = true) :
    scan_for_malware (Except.ok raw) = (true, "Clean") := by
  simp [scan_for_malware, parse_scan_response, h1, h2]

/-- C10 witness: a `FOUND` response whose signature name contains `OK` parses
as Clean. -/
theorem ok_precedes_found_witness :
    pyContains (pyStrip "stream: Trojan.OK.Gen FOUND") "OK" = true ∧
    pyContains (pyStrip "stream: Trojan.OK.Gen FOUND") "FOUND" = true ∧
    scan_for_malware (Except.ok "stream: Trojan.OK.Gen FOUND") = (true, "Clean") :=
  ⟨by decide, by decide, ok_precedes_found "stream: Trojan.OK.Gen FOUND" (by decide) (by decide)⟩

/-- C5: the image heuristic rejects with "Image too small" when width or
height is below 10, rejects with "Image too large" when width or height
exceeds 10000, accepts otherwise, and turns any decode failure into an
analysis-error rejection rather than a propagated fault; in particular 9×9 is
too small, 10×10 is safe and 10001×500 is too large. -/
theorem analyze_image_bounds :
    (∀ info : ImageInfo, info.width < 10 ∨ info.height < 10 →
        (analyze_image_content (Except.ok info)).1 = (false, "Image too small")) ∧
    (∀ info : ImageInfo, ¬(info.width < 10 ∨ info.height < 10) →
        info.width > 10000 ∨ info.height > 10000 →
        (analyze_image_content (Except.ok info)).1 = (false, "Image too large")) ∧
    (∀ info : ImageInfo, ¬(info.width < 10 ∨ info.height < 10) →
        ¬(info.width > 10000 ∨ info.height > 10000) →
        (analyze_image_content (Except.ok info)).1 = (true, "Image appears safe")) ∧
    (∀ e, (analyze_image_content (Except.error e)).1 = (false, "Analysis error: " ++ e)) ∧
    (analyze_image_content (Except.ok ⟨9, 9, "RGB", false⟩)).1 = (false, "Image too small") ∧
    (analyze_image_content (Except.ok ⟨10, 10, "RGB", false⟩)).1 = (true, "Image appears safe") ∧
    (analyze_image_content (Except.ok ⟨10001, 500, "RGB", false⟩)).1 =
      (false, "Image too large") := by
  refine ⟨?_, ?_, ?_, fun e => rfl, by decide, by decide, by decide⟩
  · intro info h
    simp [analyze_image_content, h]
  · intro info h1 h2
    rw [not_or] at h1
    simp [analyze_image_content, h1.1, h1.2, h2]
  · intro info h1 h2
    rw [not_or] at h1
    rw [not_or] at h2
    simp only [analyze_image_content, h1.1, h1.2, h2.1, h2.2]
    simp [h1.1, h1.2, h2.1, h2.2]

/-- C5 witness: the "too small" clause applied at the concrete 9×9 image. -/
theorem analyze_image_bounds_witness :
    (9 < 10 ∨ 9 < 10) ∧
    (analyze_image_content (Except.ok ⟨9, 9, "RGB", false⟩)).1 = (false, "Image too small") :=
  ⟨Or.inl (by decide), analyze_image_bounds.1 ⟨9, 9, "RGB", false⟩ (Or.inl (by decide))⟩

/-- C6: for two decodable images of the same width and height, the Safe/Unsafe
outcome of the image heuristic is independent of the colour mode and of
transparency metadata — the transparency check at lines 130–131 only logs, so
it can change the log output but never the returned verdict. -/
theorem transparency_never_affects_verdict (width height : Nat)
    (mode1 mode2 : String) (t1 t2 : Bool) :
    (analyze_image_content (Except.ok ⟨width, height, mode1, t1⟩)).1 =
      (analyze_image_content (Except.ok ⟨width, height, mode2, t2⟩)).1 := by
  simp only [analyze_image_content]
  repeat' split
  all_goals simp_all

/-- C7: whenever the sniffed MIME type fails the prefix check of every
category whose extension set contains the file's extension, type validation
returns invalid with the category unresolved — so a `.jpg` file sniffed as
`application/x-executable` is rejected and the extension alone never decides
acceptance. -/
theorem mime_mismatch_rejected (file_path mime_type : String)
    (h : ∀ p ∈ ALLOWED_EXTENSIONS, extOf file_path ∈ p.2 →
        mime_matches_extension mime_type p.1 = false) :
    validate_file_type (Except.ok mime_type) file_path =
      (false, none, some mime_type) := by
  have h1 := h ("image", ["jpg", "jpeg", "png", "gif", "bmp", "webp"])
    (by simp [ALLOWED_EXTENSIONS])
  have h2 := h ("video", ["mp4", "avi", "mov", "wmv", "flv", "webm"])
    (by simp [ALLOWED_EXTENSIONS])
  have h3 := h ("document", ["pdf", "doc", "docx", "txt", "rtf", "odt"])
    (by simp [ALLOWED_EXTENSIONS])
  simp only [validate_file_type, ALLOWED_EXTENSIONS, validate_file_type_loop]
  repeat' split
  all_goals simp_all

/-- C7 witness: a file named `.jpg` whose sniffed content type is
`application/x-executable` is rejected with the category unresolved. -/
theorem mime_mismatch_rejected_witness :
    extOf "/tmp/evil.jpg" = "jpg" ∧
    validate_file_type (Except.ok "application/x-executable") "/tmp/evil.jpg" =
      (false, none, some "application/x-executable") :=
  ⟨by decide,
    mime_mismatch_rejected "/tmp/evil.jpg" "application/x-executable" (by decide)⟩

/-- C8: size validation returns the pair (size ≤ configured maximum, size),
the configured default maximum is 10,485,760 bytes, a file of exactly the
maximum passes, one byte over fails, and an I/O fault on stat yields failure
with a reported size of 0. -/
theorem validate_file_size_contract :
    (∀ size max_size : Nat, validate_file_size (Except.ok size) max_size =
        (decide (size ≤ max_size), size)) ∧
    (∀ e max_size, validate_file_size (Except.error e) max_size = (false, 0)) ∧
    MAX_FILE_SIZE = 10485760 ∧
    validate_file_size (Except.ok 10485760) MAX_FILE_SIZE = (true, 10485760) ∧
    validate_file_size (Except.ok 10485761) MAX_FILE_SIZE = (false, 10485761) := by
  refine ⟨fun size max_size => rfl, fun e max_size => rfl, rfl, by decide, by decide⟩
